import Mathlib

/-!
Verification of ai-handwritten-reader.

Shallow embedding of the two Next.js API handlers
(src/pages/api/extract.js and src/pages/api/summarize.js) and of the
client page logic (src/app/page.tsx).  Handlers are modelled as pure
functions from a request plus an oracle world (file system reads, the
sharp pipeline, the Gemini call outcome, the environment) to a result
record that carries the HTTP response together with an effect trace:
the external model calls issued, the fs.unlink attempts, and whether
the request body was parsed.  External libraries (formidable, sharp,
jsPDF, the Gemini SDK) are modelled from their documented contracts;
everything else is translated line by line from the source.
-/

/-- A JavaScript-like value for multipart form fields and JSON body fields:
a string, an array, undefined, or some other non-string value. -/
inductive JsVal where
  | str (s : String)
  | arr (elems : List JsVal)
  | undef
  | other

/-- A formidable uploaded file record.  Only the `filepath` property is read
by the handler; the empty string models a falsy (absent) filepath. -/
structure FormFile where
  filepath : String
  deriving DecidableEq, Repr

/-- A value stored under one key of the formidable `files` object: either a
single file object or an array of file objects (both shapes are handled by
`normalizeFormFile` in extract.js, lines 14 to 20). -/
inductive FileField where
  | single (f : FormFile)
  | array (l : List FormFile)
  deriving DecidableEq, Repr

abbrev Fields := List (String × JsVal)
abbrev Files := List (String × FileField)
abbrev ParsedForm := Option Fields × Option Files

/-- extract.js line 12. -/
def FORM_FILE_FIELDS : List String := ["file", "image", "document"]

/-- extract.js lines 14 to 20: unwrap an array-valued file field to its first
element; an absent field stays absent, and indexing an empty array gives
undefined. -/
def normalizeFormFile : Option FileField → Option FormFile
  | none => none
  | some (FileField.single f) => some f
  | some (FileField.array l) => l.head?

/-- Property lookup on the formidable `files` object, modelled as an
association list in insertion order. -/
def lookupFile (files : Files) (k : String) : Option FileField :=
  (files.find? (fun p => p.1 == k)).map Prod.snd

/-- Property lookup on the formidable `fields` object; a missing key reads as
undefined. -/
def lookupField (fs : Fields) (k : String) : JsVal :=
  ((fs.find? (fun p => p.1 == k)).map Prod.snd).getD JsVal.undef

/-- extract.js lines 111 to 116: the first field name of FORM_FILE_FIELDS
that is present in `files` wins, normalized; the loop breaks even when
normalization yields undefined. -/
def findNamedFile (files : Files) : Option FormFile :=
  match FORM_FILE_FIELDS.find? (fun k => (lookupFile files k).isSome) with
  | some k => normalizeFormFile (lookupFile files k)
  | none => none

/-- extract.js lines 120 to 123: fall back to the file under the first key of
the `files` object, whatever its name. -/
def fallbackFirstFile (files : Files) : Option FormFile :=
  match files.head? with
  | some kv => normalizeFormFile (some kv.2)
  | none => none

/-- Truthiness of `uploadedFile?.filepath`. -/
def hasFilepath : Option FormFile → Bool
  | some f => f.filepath ≠ ""
  | none => false

/-- extract.js lines 106 to 124: the final value of `uploadedFile` after the
named-field loop and the first-key fallback. -/
def selectUploadedFile (files : Option Files) : Option FormFile :=
  let u1 : Option FormFile :=
    match files with
    | some fs => findNamedFile fs
    | none => none
  if hasFilepath u1 then u1
  else
    match files with
    | some fs => fallbackFirstFile fs
    | none => u1

/-- Symbolic image buffers: an original byte buffer, or the result of one of
the three sharp pipeline stages applied to an image. -/
inductive Img where
  | raw (bytes : List Nat)
  | gray (i : Img)
  | normalize (i : Img)
  | png (i : Img)
  deriving DecidableEq, Repr

/-- extract.js lines 40 to 42: sharp(buffer).grayscale().normalize().png(),
the fixed three-stage pipeline. -/
def cleanImage (b : List Nat) : Img :=
  Img.png (Img.normalize (Img.gray (Img.raw b)))

def promptAuto : String :=
  "Extract the handwritten text from this document. Detect the language automatically and respond only with the transcribed text."

def promptEn : String :=
  "Extract and transcribe the handwritten text in English. Respond with the best English transcription."

def promptHi : String :=
  "Extract and transcribe the handwritten text in Hindi using Devanagari script."

def promptMr : String :=
  "Extract and transcribe the handwritten text in Marathi using Devanagari script."

def promptEs : String :=
  "Extract and transcribe the handwritten text in Spanish. Respond in Spanish."

/-- extract.js lines 44 to 50: the five own properties of the object
literal, as a lookup that is `none` on any key that is not an own key. -/
def LANGUAGE_PROMPTS (language : String) : Option String :=
  if language = "auto" then some promptAuto
  else if language = "en" then some promptEn
  else if language = "hi" then some promptHi
  else if language = "mr" then some promptMr
  else if language = "es" then some promptEs
  else none

/-- The value a JavaScript bracket read of the prompt table can produce:
one of the five own string entries, or a non-string, non-nullish value
inherited from Object.prototype (for example the constructor function under
the key constructor, or Object.prototype itself under the key __proto__). -/
inductive PromptVal where
  | strPrompt (s : String)
  | protoObject (key : String)
  deriving DecidableEq, Repr

/-- The property names of Object.prototype: a bracket read of any of these
on a plain object literal finds the inherited value instead of undefined. -/
def OBJECT_PROTOTYPE_KEYS : List String :=
  ["constructor", "hasOwnProperty", "isPrototypeOf", "propertyIsEnumerable",
   "toLocaleString", "toString", "valueOf", "__defineGetter__",
   "__defineSetter__", "__lookupGetter__", "__lookupSetter__", "__proto__"]

/-- JavaScript bracket read LANGUAGE_PROMPTS[language] on the object
literal: an own key yields its string entry; otherwise the prototype chain
is consulted, so an Object.prototype property name yields that inherited
non-nullish value; every remaining key reads as undefined. -/
def languagePromptsLookup (language : String) : Option PromptVal :=
  match LANGUAGE_PROMPTS language with
  | some s => some (PromptVal.strPrompt s)
  | none =>
      if language ∈ OBJECT_PROTOTYPE_KEYS then some (PromptVal.protoObject language)
      else none

/-- extract.js line 67: LANGUAGE_PROMPTS[language] ?? LANGUAGE_PROMPTS.auto.
The nullish-coalescing fallback fires only when the bracket read is
undefined, so an inherited Object.prototype value passes through. -/
def resolvePrompt (language : String) : PromptVal :=
  (languagePromptsLookup language).getD (PromptVal.strPrompt promptAuto)

/-- Model of JavaScript String.prototype.trim: drop whitespace from both
ends (written over the character list so it evaluates structurally). -/
def jsTrim (s : String) : String :=
  String.mk (((s.data.dropWhile Char.isWhitespace).reverse.dropWhile Char.isWhitespace).reverse)

/-- Model of JavaScript String.prototype.toLowerCase, ASCII range (written
over the character list so it evaluates structurally). -/
def jsToLowerCase (s : String) : String :=
  String.mk (s.data.map Char.toLower)

/-- extract.js line 134: an array-valued language field is unwrapped to its
first element before the type test. -/
def languageValueOf : JsVal → JsVal
  | JsVal.arr l => l.head?.getD JsVal.undef
  | v => v

/-- extract.js line 135: a string value is lowercased; anything else resolves
to the literal "auto". -/
def resolveLanguageValue : JsVal → String
  | JsVal.str s => jsToLowerCase s
  | _ => "auto"

/-- extract.js lines 133 to 135 composed: from the raw `language` field to
the language key used for the prompt lookup. -/
def resolveLanguage (languageField : JsVal) : String :=
  resolveLanguageValue (languageValueOf languageField)

/-- The prompt string ultimately sent for a given raw `language` field. -/
def promptForField (languageField : JsVal) : PromptVal :=
  resolvePrompt (resolveLanguage languageField)

/-- The two credential environment variables read by both endpoints;
`none` models an unset variable. -/
structure EnvVars where
  GEMINI_API_KEY : Option String
  NEXT_PUBLIC_GEMINI_API_KEY : Option String

/-- extract.js lines 52 to 54 and summarize.js lines 5 to 7:
process.env.GEMINI_API_KEY ?? process.env.NEXT_PUBLIC_GEMINI_API_KEY ?? "".
The nullish-coalescing operator only skips absent values, so a present empty
string is returned as is. -/
def getGeminiApiKey (env : EnvVars) : String :=
  env.GEMINI_API_KEY.getD (env.NEXT_PUBLIC_GEMINI_API_KEY.getD "")

/-- Oracle for one model.generateContent round trip: the transport throws,
the result has no response, or the response yields this text. -/
inductive GeminiOutcome where
  | transportError (msg : String)
  | noResponse
  | responseText (s : String)
  deriving DecidableEq, Repr

/-- One call issued to the external model by the extraction endpoint: the
value placed in the text part (normally one of the prompt strings) and the
image buffer whose base64 rendering is attached as inline data. -/
structure GeminiCall where
  prompt : PromptVal
  image : Img
  deriving DecidableEq, Repr

/-- Result of extractTextFromImage: the returned or thrown value, together
with the external calls issued. -/
structure ExtractCallOutcome where
  result : Except String String
  calls : List GeminiCall

/-- extract.js lines 56 to 97: check the credential, resolve the prompt,
issue the single generateContent call and validate its response. -/
def extractTextFromImage (env : EnvVars) (gemini : GeminiOutcome)
    (imageBuffer : Img) (language : String) : ExtractCallOutcome :=
  if getGeminiApiKey env = "" then
    { result := Except.error "Missing GEMINI_API_KEY environment variable", calls := [] }
  else
    match gemini with
    | GeminiOutcome.transportError msg =>
        { result := Except.error msg,
          calls := [{ prompt := resolvePrompt language, image := imageBuffer }] }
    | GeminiOutcome.noResponse =>
        { result := Except.error "No response received from Gemini",
          calls := [{ prompt := resolvePrompt language, image := imageBuffer }] }
    | GeminiOutcome.responseText s =>
        if s = "" then
          { result := Except.error "Gemini returned an empty response",
            calls := [{ prompt := resolvePrompt language, image := imageBuffer }] }
        else
          { result := Except.ok (jsTrim s),
            calls := [{ prompt := resolvePrompt language, image := imageBuffer }] }

/-- A JSON response body: either a text payload or an error payload. -/
inductive ApiBody where
  | textOut (text : String)
  | errorOut (error : String)
  deriving DecidableEq, Repr

/-- An HTTP response: status code, headers set via res.setHeader, body. -/
structure ApiResponse where
  status : Nat
  headers : List (String × String)
  body : ApiBody
  deriving DecidableEq, Repr

/-- The oracle world for one extraction request: environment, file system
reads, whether the sharp pipeline throws, and the Gemini call outcome. -/
structure ExtractWorld where
  env : EnvVars
  fsRead : String → Except String (List Nat)
  sharpError : Option String
  gemini : GeminiOutcome

/-- One extraction request: the HTTP method and the outcome of the formidable
multipart parse (an error, or the fields and files objects). -/
structure ExtractRequest where
  method : String
  parseOutcome : Except String ParsedForm

/-- The observable result of one extraction request: the response plus the
effect trace (model calls issued, fs.unlink attempts from the finally block,
and whether multipart parsing was attempted at all). -/
structure ExtractResult where
  response : ApiResponse
  geminiCalls : List GeminiCall
  unlinkAttempts : List String
  parseAttempted : Bool
  deriving DecidableEq, Repr

/-- extract.js line 133: fields?.language, undefined when the parse produced
no fields object. -/
def extractLanguageField (fields : Option Fields) : JsVal :=
  match fields with
  | some fs => lookupField fs "language"
  | none => JsVal.undef

/-- extract.js lines 131 to 141 after the image was read and cleaned: resolve
the language, call the model, and map the outcome to a 200 or a 500; the
finally block unlinks the temporary file on both paths. -/
def extractRespond (w : ExtractWorld) (fields : Option Fields)
    (cleanedBuffer : Img) (filepath : String) : ExtractResult :=
  match extractTextFromImage w.env w.gemini cleanedBuffer
      (resolveLanguage (extractLanguageField fields)) with
  | { result := Except.ok text, calls := calls } =>
      { response := ⟨200, [], ApiBody.textOut text⟩,
        geminiCalls := calls, unlinkAttempts := [filepath], parseAttempted := true }
  | { result := Except.error e, calls := calls } =>
      { response := ⟨500, [], ApiBody.errorOut e⟩,
        geminiCalls := calls, unlinkAttempts := [filepath], parseAttempted := true }

/-- extract.js lines 99 to 152: the extraction request handler.  Non-POST
methods get 405 before anything else; a parse error, a read error, a sharp
error or a model error is caught at the top level and mapped to a 500; a
missing file is a 400; the finally block attempts fs.unlink exactly when
uploadedFile?.filepath is truthy. -/
def extractHandler (w : ExtractWorld) (req : ExtractRequest) : ExtractResult :=
  if req.method = "POST" then
    match req.parseOutcome with
    | Except.error e =>
        { response := ⟨500, [], ApiBody.errorOut e⟩,
          geminiCalls := [], unlinkAttempts := [], parseAttempted := true }
    | Except.ok (fields, files) =>
        match selectUploadedFile files with
        | none =>
            { response := ⟨400, [], ApiBody.errorOut "No image file uploaded"⟩,
              geminiCalls := [], unlinkAttempts := [], parseAttempted := true }
        | some f =>
            if f.filepath = "" then
              { response := ⟨400, [], ApiBody.errorOut "No image file uploaded"⟩,
                geminiCalls := [], unlinkAttempts := [], parseAttempted := true }
            else
              match w.fsRead f.filepath with
              | Except.error e =>
                  { response := ⟨500, [], ApiBody.errorOut e⟩,
                    geminiCalls := [], unlinkAttempts := [f.filepath], parseAttempted := true }
              | Except.ok originalBuffer =>
                  match w.sharpError with
                  | some e =>
                      { response := ⟨500, [], ApiBody.errorOut e⟩,
                        geminiCalls := [], unlinkAttempts := [f.filepath], parseAttempted := true }
                  | none =>
                      extractRespond w fields (cleanImage originalBuffer) f.filepath
  else
    { response := ⟨405, [("Allow", "POST")], ApiBody.errorOut "Method Not Allowed"⟩,
      geminiCalls := [], unlinkAttempts := [], parseAttempted := false }

/-- extract.js lines 22 to 27 configure formidable with
maxFileSize = 25 * 1024 * 1024 bytes. -/
def maxFileSize : Nat := 25 * 1024 * 1024

/-- Model of parseMultipartRequest (extract.js lines 22 to 38) applied to an
upload of the given size: formidable enforces the configured maxFileSize
option and makes the parse callback report an error for a larger upload
(library contract); otherwise the parse resolves with the fields and files. -/
def parseMultipartOutcome (uploadSize : Nat) (parsed : ParsedForm) :
    Except String ParsedForm :=
  if uploadSize > maxFileSize then
    Except.error ("options.maxFileSize (" ++ toString maxFileSize ++ " bytes) exceeded")
  else
    Except.ok parsed

/-- summarize.js line 3. -/
def ALLOWED_MODES : List String := ["summarize", "rewrite"]

/-- summarize.js line 64: ALLOWED_MODES.has(mode) under SameValueZero, so
only the exact strings pass. -/
def modeAllowed : JsVal → Bool
  | JsVal.str s => ALLOWED_MODES.contains s
  | _ => false

/-- summarize.js line 59: typeof text !== "string" || !text.trim(). -/
def textInvalid : JsVal → Bool
  | JsVal.str s => jsTrim s == ""
  | _ => true

def summarizeSystemPrompt : String :=
  "Provide a concise summary of the following handwritten transcription. Return clear paragraphs."

def rewriteSystemPrompt : String :=
  "Rewrite the following handwritten transcription into polished, easy-to-read prose while preserving meaning."

/-- summarize.js lines 18 to 21: the mode ternary choosing the instruction. -/
def systemPromptFor : JsVal → String
  | JsVal.str "summarize" => summarizeSystemPrompt
  | _ => rewriteSystemPrompt

/-- One call issued to the external model by the transform endpoint: the
single concatenated text part. -/
structure TransformCall where
  content : String
  deriving DecidableEq, Repr

/-- Result of processTextWithGemini: returned or thrown value plus the calls
issued. -/
structure TransformCallOutcome where
  result : Except String String
  calls : List TransformCall

/-- summarize.js lines 9 to 47: check the credential, build the instruction
from the mode ternary, concatenate it with the text, issue the single call
and validate its response. -/
def processTextWithGemini (env : EnvVars) (gemini : GeminiOutcome)
    (text : String) (mode : JsVal) : TransformCallOutcome :=
  if getGeminiApiKey env = "" then
    { result := Except.error "Missing GEMINI_API_KEY environment variable", calls := [] }
  else
    match gemini with
    | GeminiOutcome.transportError msg =>
        { result := Except.error msg,
          calls := [{ content := systemPromptFor mode ++ "\n\n---\n\n" ++ text }] }
    | GeminiOutcome.noResponse =>
        { result := Except.error "No response received from Gemini",
          calls := [{ content := systemPromptFor mode ++ "\n\n---\n\n" ++ text }] }
    | GeminiOutcome.responseText s =>
        if s = "" then
          { result := Except.error "Gemini returned an empty response",
            calls := [{ content := systemPromptFor mode ++ "\n\n---\n\n" ++ text }] }
        else
          { result := Except.ok (jsTrim s),
            calls := [{ content := systemPromptFor mode ++ "\n\n---\n\n" ++ text }] }

/-- The JSON request body of the transform endpoint; destructuring a body
without one of the properties reads undefined. -/
structure SummarizeBody where
  text : JsVal
  mode : JsVal

/-- One transform request: HTTP method and optional parsed JSON body
(req.body ?? {} makes an absent body read as all-undefined). -/
structure SummarizeRequest where
  method : String
  body : Option SummarizeBody

/-- The oracle world for one transform request. -/
structure SummarizeWorld where
  env : EnvVars
  gemini : GeminiOutcome

/-- The observable result of one transform request: the response plus the
external calls issued and whether body validation was reached. -/
structure SummarizeResult where
  response : ApiResponse
  transformCalls : List TransformCall
  bodyValidated : Bool
  deriving DecidableEq, Repr

/-- The `text` property after req.body ?? {}. -/
def bodyText (b : Option SummarizeBody) : JsVal :=
  (b.map SummarizeBody.text).getD JsVal.undef

/-- The `mode` property after req.body ?? {}. -/
def bodyMode (b : Option SummarizeBody) : JsVal :=
  (b.map SummarizeBody.mode).getD JsVal.undef

/-- summarize.js lines 49 to 75: the transform request handler.  Non-POST
methods get 405; a non-string or blank text gets 400; a mode outside
ALLOWED_MODES gets 400; otherwise the single model call is made and its
outcome mapped to 200 or 500. -/
def summarizeHandler (w : SummarizeWorld) (req : SummarizeRequest) : SummarizeResult :=
  if req.method = "POST" then
    match bodyText req.body with
    | JsVal.str s =>
        if jsTrim s = "" then
          { response := ⟨400, [], ApiBody.errorOut "Request must include non-empty \x27text\x27"⟩,
            transformCalls := [], bodyValidated := true }
        else if modeAllowed (bodyMode req.body) then
          match processTextWithGemini w.env w.gemini s (bodyMode req.body) with
          | { result := Except.ok t, calls := calls } =>
              { response := ⟨200, [], ApiBody.textOut t⟩,
                transformCalls := calls, bodyValidated := true }
          | { result := Except.error e, calls := calls } =>
              { response := ⟨500, [], ApiBody.errorOut e⟩,
                transformCalls := calls, bodyValidated := true }
        else
          { response := ⟨400, [], ApiBody.errorOut "Mode must be either \x27summarize\x27 or \x27rewrite\x27"⟩,
            transformCalls := [], bodyValidated := true }
    | _ =>
        { response := ⟨400, [], ApiBody.errorOut "Request must include non-empty \x27text\x27"⟩,
          transformCalls := [], bodyValidated := true }
  else
    { response := ⟨405, [("Allow", "POST")], ApiBody.errorOut "Method Not Allowed"⟩,
      transformCalls := [], bodyValidated := false }

/-- Client state of page.tsx relevant to the extract flow: the selected file
(by name), the transcription text, the transform result, the visible error
message and the in-flight flag. -/
structure ClientState where
  selectedFile : Option String
  extractedText : String
  processedText : String
  errorMsg : String
  isLoading : Bool
  deriving DecidableEq, Repr

/-- Outcome of the fetch to /api/extract as seen by handleExtract: a 200
whose JSON may or may not carry a text property, or a failure (a non-ok
response or a thrown error). -/
inductive FetchOutcome where
  | success (text : Option String)
  | failure (msg : String)
  deriving DecidableEq, Repr

/-- page.tsx lines 61 to 94: the net state transition of one handleExtract
run.  Without a selected file only the error message is set; on a successful
response the transcription text is replaced by data.text ?? "" and the
processed text is cleared; on failure the error message is set.  The finally
block always ends with isLoading false. -/
def handleExtract (s : ClientState) (outcome : FetchOutcome) : ClientState :=
  match s.selectedFile with
  | none => { s with errorMsg := "Please select an image before extracting." }
  | some _ =>
      match outcome with
      | FetchOutcome.success t =>
          { s with isLoading := false, errorMsg := "",
                   extractedText := t.getD "", processedText := "" }
      | FetchOutcome.failure m =>
          { s with isLoading := false, errorMsg := m }

/-- page.tsx line 273: the disabled condition of the Extract button. -/
def extractDisabled (s : ClientState) : Bool :=
  s.isLoading || s.selectedFile.isNone

/-!
PDF export (page.tsx lines 140 to 205).  jsPDF a4 portrait in pt units has
pageHeight 841.89.  All vertical quantities are modelled in hundredths of a
point so the arithmetic is exact: line height 12 * 1.6 = 19.2 pt per line,
margins 96 pt, paragraph spacing 20 pt.  doc.splitTextToSize depends on font
metrics, so it enters the model as an oracle giving the number of wrapped
lines of a paragraph.
-/

def pageHeightC : Int := 84189

def marginTopC : Int := 9600

def marginBottomC : Int := 9600

def paragraphSpacingC : Int := 2000

/-- 12 pt font times lineHeightFactor 1.6, in hundredths of a point. -/
def lineHeightC : Int := 1920

/-- The vertical space available to paragraphs on one page. -/
def contentHeightC : Int := pageHeightC - marginTopC - marginBottomC

/-- Accumulator for the regex split: finished paragraphs, the current
paragraph in reverse, and the length of the pending newline run. -/
structure SplitSt where
  done : List String
  cur : List Char
  nl : Nat

/-- One character step of splitting on the regex of two or more newlines:
newlines are buffered; a run of at least two ends the current paragraph,
while a single buffered newline is flushed into it. -/
def splitStep (st : SplitSt) (c : Char) : SplitSt :=
  if c = '\n' then { st with nl := st.nl + 1 }
  else if st.nl ≥ 2 then
    { done := st.done ++ [String.mk st.cur.reverse], cur := [c], nl := 0 }
  else
    { st with cur := c :: (List.replicate st.nl '\n' ++ st.cur), nl := 0 }

/-- page.tsx line 175, the split: text.split on the regex matching two or
more consecutive newlines.  A trailing delimiter contributes a trailing
empty piece, as in JavaScript. -/
def splitOnBlankLines (s : String) : List String :=
  match s.data.foldl splitStep { done := [], cur := [], nl := 0 } with
  | st =>
      if st.nl ≥ 2 then st.done ++ [String.mk st.cur.reverse, ""]
      else st.done ++ [String.mk (List.replicate st.nl '\n' ++ st.cur).reverse]

/-- page.tsx line 175 complete: split, trim each piece, drop falsy pieces. -/
def paragraphsOf (s : String) : List String :=
  ((splitOnBlankLines s).map jsTrim).filter (fun p => p ≠ "")

/-- page.tsx lines 178 to 197, one loop iteration over (cursorY, pages):
requiredHeight is lines times 19.2 pt; a new page starts when cursorY plus
requiredHeight would pass the bottom margin; paragraph spacing is added
after every paragraph but the last.  `n` is the paragraph count and the
first component of `ip` the index. -/
def pdfBodyStep (n : Nat) (lineCount : String → Nat)
    (st : Int × Nat) (ip : Nat × String) : Int × Nat :=
  match st with
  | (cursorY0, pages0) =>
      match
        (if cursorY0 + (lineCount ip.2 : Int) * lineHeightC > pageHeightC - marginBottomC then
          ((marginTopC : Int), pages0 + 1)
        else
          (cursorY0, pages0)) with
      | (cursorY1, pages1) =>
          (cursorY1 + (lineCount ip.2 : Int) * lineHeightC
              + (if ip.1 < n - 1 then paragraphSpacingC else 0),
            pages1)

/-- page.tsx lines 140 to 205: the number of pages of the exported document,
one initial page plus one doc.addPage call per overflowing paragraph. -/
def pageCount (lineCount : String → Nat) (text : String) : Nat :=
  match paragraphsOf text with
  | ps => ((ps.enum).foldl (pdfBodyStep ps.length lineCount) ((marginTopC : Int), 1)).2

/-- C1 counterexample: the hint constructor is none of the five table keys,
yet the bracket read finds the inherited Object.prototype constructor, a
non-nullish value, so the nullish-coalescing fallback of extract.js line 67
does not fire and the resolved prompt is not the auto entry.  The key is
client-reachable: it is already lowercase, so the toLowerCase of line 135
preserves it. -/
theorem C1_prototype_chain_counterexample :
    "constructor" ∉ (["auto", "en", "hi", "mr", "es"] : List String) ∧
    promptForField (JsVal.str "constructor") ≠ PromptVal.strPrompt promptAuto ∧
    promptForField (JsVal.str "constructor") = PromptVal.protoObject "constructor" :=
  ⟨by decide, by decide, by decide⟩

/-- C1 (amended): For every language hint in the set {auto, en, hi, mr, es},
the extraction endpoint resolves the prompt to the corresponding fixed
string of the five-entry lookup table; for every other hint value (including
an absent hint) that is not the name of an Object.prototype property, the
resolved prompt equals the auto entry, while at an inherited property name
such as constructor or __proto__ the read returns the inherited non-nullish
value instead of falling back. -/
theorem C1_language_prompt_table :
    promptForField (JsVal.str "auto") = PromptVal.strPrompt promptAuto ∧
    promptForField (JsVal.str "en") = PromptVal.strPrompt promptEn ∧
    promptForField (JsVal.str "hi") = PromptVal.strPrompt promptHi ∧
    promptForField (JsVal.str "mr") = PromptVal.strPrompt promptMr ∧
    promptForField (JsVal.str "es") = PromptVal.strPrompt promptEs ∧
    promptForField JsVal.undef = PromptVal.strPrompt promptAuto ∧
    ∀ hint : String, hint ∉ (["auto", "en", "hi", "mr", "es"] : List String) →
      hint ∉ OBJECT_PROTOTYPE_KEYS →
      resolvePrompt hint = PromptVal.strPrompt promptAuto := by
  refine ⟨by decide, by decide, by decide, by decide, by decide, by decide,
    fun hint h hproto => ?_⟩
  simp only [List.mem_cons, List.not_mem_nil, or_false, not_or] at h
  obtain ⟨h1, h2, h3, h4, h5⟩ := h
  unfold resolvePrompt languagePromptsLookup LANGUAGE_PROMPTS
  rw [if_neg h1, if_neg h2, if_neg h3, if_neg h4, if_neg h5]
  rw [if_neg hproto]
  rfl

theorem C1_language_prompt_table_witness :
    "fr" ∉ (["auto", "en", "hi", "mr", "es"] : List String) ∧
    "fr" ∉ OBJECT_PROTOTYPE_KEYS ∧
    resolvePrompt "fr" = PromptVal.strPrompt promptAuto :=
  ⟨by decide, by decide,
   C1_language_prompt_table.2.2.2.2.2.2 "fr" (by decide) (by decide)⟩

/-- C9: The language hint matching of the extraction endpoint is
case-insensitive: a string language value is lowercased before the prompt
lookup, so the hint EN resolves to the same prompt as en, and a non-string
language value resolves to auto. -/
theorem C9_language_case_insensitive :
    (∀ s : String, resolveLanguageValue (JsVal.str s) = jsToLowerCase s) ∧
    resolveLanguage (JsVal.str "EN") = "en" ∧
    promptForField (JsVal.str "EN") = promptForField (JsVal.str "en") ∧
    (∀ v : JsVal, (∀ s : String, v ≠ JsVal.str s) → resolveLanguageValue v = "auto") := by
  refine ⟨fun s => rfl, by decide, by decide, fun v hv => ?_⟩
  cases v with
  | str s => exact absurd rfl (hv s)
  | arr l => rfl
  | undef => rfl
  | other => rfl

theorem C9_language_case_insensitive_witness :
    resolveLanguageValue (JsVal.str "EN") = jsToLowerCase "EN" ∧
    resolveLanguageValue JsVal.undef = "auto" :=
  ⟨C9_language_case_insensitive.1 "EN",
   C9_language_case_insensitive.2.2.2 JsVal.undef (fun _ h => JsVal.noConfusion h)⟩

/-- C6: For every completed (successful) extraction run of the client, the
transcription text is replaced by the response text and any prior transform
result is cleared to the empty string. -/
theorem C6_extract_clears_transform (s : ClientState) (t : Option String)
    (hfile : s.selectedFile.isSome = true) :
    (handleExtract s (FetchOutcome.success t)).extractedText = t.getD "" ∧
    (handleExtract s (FetchOutcome.success t)).processedText = "" := by
  cases hsel : s.selectedFile with
  | none => rw [hsel] at hfile; simp at hfile
  | some f => unfold handleExtract; rw [hsel]; exact ⟨rfl, rfl⟩

theorem C6_extract_clears_transform_witness :
    (handleExtract
        { selectedFile := some "note.jpg", extractedText := "old",
          processedText := "old summary", errorMsg := "", isLoading := true }
        (FetchOutcome.success (some "new text"))).extractedText = "new text" ∧
    (handleExtract
        { selectedFile := some "note.jpg", extractedText := "old",
          processedText := "old summary", errorMsg := "", isLoading := true }
        (FetchOutcome.success (some "new text"))).processedText = "" :=
  C6_extract_clears_transform
    { selectedFile := some "note.jpg", extractedText := "old",
      processedText := "old summary", errorMsg := "", isLoading := true }
    (some "new text") rfl

/-- C5: A request with a method other than POST is answered 405 with an
Allow POST header by both endpoints, without body parsing, validation, an
external model call, or a file unlink. -/
theorem C5_non_post_rejected (we : ExtractWorld) (reqe : ExtractRequest)
    (ws : SummarizeWorld) (reqs : SummarizeRequest)
    (he : reqe.method ≠ "POST") (hs : reqs.method ≠ "POST") :
    ((extractHandler we reqe).response.status = 405 ∧
      ("Allow", "POST") ∈ (extractHandler we reqe).response.headers ∧
      (extractHandler we reqe).parseAttempted = false ∧
      (extractHandler we reqe).geminiCalls = [] ∧
      (extractHandler we reqe).unlinkAttempts = []) ∧
    ((summarizeHandler ws reqs).response.status = 405 ∧
      ("Allow", "POST") ∈ (summarizeHandler ws reqs).response.headers ∧
      (summarizeHandler ws reqs).bodyValidated = false ∧
      (summarizeHandler ws reqs).transformCalls = []) := by
  unfold extractHandler summarizeHandler
  rw [if_neg he, if_neg hs]
  exact ⟨⟨rfl, by simp, rfl, rfl, rfl⟩, ⟨rfl, by simp, rfl, rfl⟩⟩

/-- A concrete extraction world used by closed instances. -/
def wNoKey : ExtractWorld :=
  { env := { GEMINI_API_KEY := none, NEXT_PUBLIC_GEMINI_API_KEY := none },
    fsRead := fun _ => Except.error "no such file", sharpError := none,
    gemini := GeminiOutcome.noResponse }

/-- A concrete transform world used by closed instances. -/
def wsNoKey : SummarizeWorld :=
  { env := { GEMINI_API_KEY := none, NEXT_PUBLIC_GEMINI_API_KEY := none },
    gemini := GeminiOutcome.noResponse }

theorem C5_non_post_rejected_witness :
    (extractHandler wNoKey
        { method := "GET", parseOutcome := Except.ok (none, none) }).response.status = 405 ∧
    (summarizeHandler wsNoKey { method := "GET", body := none }).response.status = 405 :=
  ⟨(C5_non_post_rejected wNoKey { method := "GET", parseOutcome := Except.ok (none, none) }
      wsNoKey { method := "GET", body := none } (by decide) (by decide)).1.1,
   (C5_non_post_rejected wNoKey { method := "GET", parseOutcome := Except.ok (none, none) }
      wsNoKey { method := "GET", body := none } (by decide) (by decide)).2.1⟩

/-- C3: On a POST to the transform endpoint, a mode that is not exactly
summarize or rewrite yields a 400 with no external model call, and likewise
an empty or missing text yields a 400 with no external model call. -/
theorem C3_transform_validation (w : SummarizeWorld) (req : SummarizeRequest)
    (hm : req.method = "POST") :
    (modeAllowed (bodyMode req.body) = false →
      (summarizeHandler w req).response.status = 400 ∧
      (summarizeHandler w req).transformCalls = []) ∧
    (textInvalid (bodyText req.body) = true →
      (summarizeHandler w req).response.status = 400 ∧
      (summarizeHandler w req).transformCalls = []) := by
  unfold summarizeHandler
  rw [if_pos hm]
  constructor
  · intro hmode
    cases ht : bodyText req.body with
    | str s =>
        simp only [ht]
        by_cases he : jsTrim s = ""
        · rw [if_pos he]; exact ⟨rfl, rfl⟩
        · rw [if_neg he, hmode]; exact ⟨rfl, rfl⟩
    | arr l => exact ⟨rfl, rfl⟩
    | undef => exact ⟨rfl, rfl⟩
    | other => exact ⟨rfl, rfl⟩
  · intro htext
    cases ht : bodyText req.body with
    | str s =>
        rw [ht] at htext
        simp only [textInvalid, beq_iff_eq] at htext
        simp only [ht]
        rw [if_pos htext]
        exact ⟨rfl, rfl⟩
    | arr l => exact ⟨rfl, rfl⟩
    | undef => exact ⟨rfl, rfl⟩
    | other => exact ⟨rfl, rfl⟩

theorem C3_transform_validation_witness :
    (summarizeHandler wsNoKey
        { method := "POST",
          body := some { text := JsVal.str "hello", mode := JsVal.str "translate" } }).response.status = 400 ∧
    (summarizeHandler wsNoKey
        { method := "POST",
          body := some { text := JsVal.str "hello", mode := JsVal.str "translate" } }).transformCalls = [] :=
  (C3_transform_validation wsNoKey
      { method := "POST",
        body := some { text := JsVal.str "hello", mode := JsVal.str "translate" } }
      rfl).1 (by decide)

/-- extractRespond always records exactly the one unlink attempt of the
finally block. -/
theorem extractRespond_unlink (w : ExtractWorld) (fields : Option Fields)
    (img : Img) (fp : String) :
    (extractRespond w fields img fp).unlinkAttempts = [fp] := by
  unfold extractRespond
  split <;> rfl

/-- C2: Every extraction POST whose multipart parse produced an uploaded
file with a truthy filepath attempts the fs.unlink of that filepath on every
exit path of the handler. -/
theorem C2_temp_file_unlinked (w : ExtractWorld) (fields : Option Fields)
    (files : Option Files) (f : FormFile)
    (hsel : selectUploadedFile files = some f) (hp : f.filepath ≠ "") :
    (extractHandler w
        { method := "POST", parseOutcome := Except.ok (fields, files) }).unlinkAttempts
      = [f.filepath] := by
  unfold extractHandler
  simp only [reduceIte]
  rw [hsel]
  simp only [if_neg hp]
  cases hr : w.fsRead f.filepath with
  | error e => rfl
  | ok buf =>
      cases hsh : w.sharpError with
      | some e => rfl
      | none => exact extractRespond_unlink w fields (cleanImage buf) f.filepath

/-- A concrete extraction world with a valid credential and a successful
round trip, used by closed instances. -/
def wExtractOk : ExtractWorld :=
  { env := { GEMINI_API_KEY := some "k", NEXT_PUBLIC_GEMINI_API_KEY := none },
    fsRead := fun _ => Except.ok [7, 7],
    sharpError := none,
    gemini := GeminiOutcome.responseText " hello " }

/-- A concrete files object with one upload under the expected field name. -/
def filesOne : Option Files :=
  some [("file", FileField.single { filepath := "/tmp/upload-1" })]

theorem C2_temp_file_unlinked_witness :
    selectUploadedFile filesOne = some { filepath := "/tmp/upload-1" } ∧
    (extractHandler wExtractOk
        { method := "POST", parseOutcome := Except.ok (none, filesOne) }).unlinkAttempts
      = ["/tmp/upload-1"] :=
  ⟨by decide,
   C2_temp_file_unlinked wExtractOk none filesOne { filepath := "/tmp/upload-1" }
     (by decide) (by decide)⟩

/-- Both credential variables are unset or present but empty. -/
def credentialAbsent (env : EnvVars) : Prop :=
  (env.GEMINI_API_KEY = none ∨ env.GEMINI_API_KEY = some "") ∧
  (env.NEXT_PUBLIC_GEMINI_API_KEY = none ∨ env.NEXT_PUBLIC_GEMINI_API_KEY = some "")

theorem getGeminiApiKey_of_credentialAbsent {env : EnvVars}
    (h : credentialAbsent env) : getGeminiApiKey env = "" := by
  obtain ⟨h1 | h1, h2 | h2⟩ := h <;> simp [getGeminiApiKey, h1, h2]

/-- C8: With the credential variable and its fallback absent or empty, every
request that reaches the model stage of either endpoint fails at request
time with a 500 carrying the descriptive message, before any external model
call is issued; startup is unaffected since no module-level value reads the
environment (every lookup table above is a closed constant). -/
theorem C8_missing_credential (we : ExtractWorld) (fields : Option Fields)
    (files : Option Files) (f : FormFile) (buf : List Nat)
    (ws : SummarizeWorld) (t : String)
    (henvE : credentialAbsent we.env) (henvS : credentialAbsent ws.env)
    (hsel : selectUploadedFile files = some f) (hp : f.filepath ≠ "")
    (hread : we.fsRead f.filepath = Except.ok buf) (hsharp : we.sharpError = none)
    (ht : jsTrim t ≠ "") :
    ((extractHandler we
        { method := "POST", parseOutcome := Except.ok (fields, files) }).response.status = 500 ∧
     (extractHandler we
        { method := "POST", parseOutcome := Except.ok (fields, files) }).response.body
        = ApiBody.errorOut "Missing GEMINI_API_KEY environment variable" ∧
     (extractHandler we
        { method := "POST", parseOutcome := Except.ok (fields, files) }).geminiCalls = []) ∧
    ((summarizeHandler ws
        { method := "POST",
          body := some { text := JsVal.str t, mode := JsVal.str "summarize" } }).response.status = 500 ∧
     (summarizeHandler ws
        { method := "POST",
          body := some { text := JsVal.str t, mode := JsVal.str "summarize" } }).response.body
        = ApiBody.errorOut "Missing GEMINI_API_KEY environment variable" ∧
     (summarizeHandler ws
        { method := "POST",
          body := some { text := JsVal.str t, mode := JsVal.str "summarize" } }).transformCalls = []) := by
  have hkE := getGeminiApiKey_of_credentialAbsent henvE
  have hkS := getGeminiApiKey_of_credentialAbsent henvS
  constructor
  · unfold extractHandler extractRespond extractTextFromImage
    simp only [reduceIte]
    rw [hsel]
    simp only [if_neg hp]
    rw [hread, hsharp, hkE]
    exact ⟨rfl, rfl, rfl⟩
  · unfold summarizeHandler processTextWithGemini
    simp only [reduceIte, bodyText, bodyMode, Option.map_some', Option.getD_some]
    rw [if_neg ht, hkS]
    exact ⟨rfl, rfl, rfl⟩

theorem C8_missing_credential_witness :
    (extractHandler
        { env := { GEMINI_API_KEY := none, NEXT_PUBLIC_GEMINI_API_KEY := some "" },
          fsRead := fun _ => Except.ok [1], sharpError := none,
          gemini := GeminiOutcome.responseText "ok" }
        { method := "POST", parseOutcome := Except.ok (none, filesOne) }).response.status = 500 ∧
    (summarizeHandler wsNoKey
        { method := "POST",
          body := some { text := JsVal.str "note", mode := JsVal.str "summarize" } }).response.status = 500 :=
  ⟨(C8_missing_credential
      { env := { GEMINI_API_KEY := none, NEXT_PUBLIC_GEMINI_API_KEY := some "" },
        fsRead := fun _ => Except.ok [1], sharpError := none,
        gemini := GeminiOutcome.responseText "ok" }
      none filesOne { filepath := "/tmp/upload-1" } [1] wsNoKey "note"
      ⟨Or.inl rfl, Or.inr rfl⟩ ⟨Or.inl rfl, Or.inl rfl⟩
      (by decide) (by decide) rfl rfl (by decide)).1.1,
   (C8_missing_credential
      { env := { GEMINI_API_KEY := none, NEXT_PUBLIC_GEMINI_API_KEY := some "" },
        fsRead := fun _ => Except.ok [1], sharpError := none,
        gemini := GeminiOutcome.responseText "ok" }
      none filesOne { filepath := "/tmp/upload-1" } [1] wsNoKey "note"
      ⟨Or.inl rfl, Or.inr rfl⟩ ⟨Or.inl rfl, Or.inl rfl⟩
      (by decide) (by decide) rfl rfl (by decide)).2.1⟩

/-- Every call issued by extractTextFromImage carries exactly the image
buffer it was given. -/
theorem extractTextFromImage_calls_image (env : EnvVars) (g : GeminiOutcome)
    (img : Img) (lang : String) :
    ∀ call ∈ (extractTextFromImage env g img lang).calls, call.image = img := by
  intro call hc
  unfold extractTextFromImage at hc
  split at hc
  · simp at hc
  · cases g with
    | transportError m => simp at hc; rw [hc]
    | noResponse => simp at hc; rw [hc]
    | responseText s =>
        by_cases he : s = "" <;> simp [he] at hc <;> rw [hc]

/-- Every call issued through extractRespond carries exactly the cleaned
buffer extractRespond was given. -/
theorem extractRespond_calls_image (w : ExtractWorld) (fields : Option Fields)
    (img : Img) (fp : String) :
    ∀ call ∈ (extractRespond w fields img fp).geminiCalls, call.image = img := by
  intro call hc
  unfold extractRespond at hc
  split at hc <;>
    rename_i heq <;>
    · have hcalls := congrArg ExtractCallOutcome.calls heq
      simp only at hcalls
      rw [← hcalls] at hc
      exact extractTextFromImage_calls_image _ _ _ _ call hc

/-- C4: Every image the extraction endpoint forwards to the external model
is the uploaded buffer passed through exactly the fixed three-stage pipeline
grayscale, normalize, png re-encode, with no parameters and no alternate
path. -/
theorem C4_normalization_pipeline (w : ExtractWorld) (req : ExtractRequest)
    (call : GeminiCall) (hc : call ∈ (extractHandler w req).geminiCalls) :
    ∃ path buf, w.fsRead path = Except.ok buf ∧
      call.image = cleanImage buf ∧
      call.image = Img.png (Img.normalize (Img.gray (Img.raw buf))) := by
  unfold extractHandler at hc
  split at hc
  · split at hc
    · simp at hc
    · split at hc
      · simp at hc
      · rename_i f heqf
        split at hc
        · simp at hc
        · split at hc
          · simp at hc
          · rename_i buf hread
            split at hc
            · simp at hc
            · refine ⟨f.filepath, buf, hread, ?_, ?_⟩ <;>
                exact extractRespond_calls_image w _ _ _ call hc
  · simp at hc

theorem C4_normalization_pipeline_witness :
    ({ prompt := PromptVal.strPrompt promptAuto, image := cleanImage [7, 7] } : GeminiCall)
        ∈ (extractHandler wExtractOk
            { method := "POST", parseOutcome := Except.ok (none, filesOne) }).geminiCalls ∧
    ∃ path buf, wExtractOk.fsRead path = Except.ok buf ∧
      ({ prompt := PromptVal.strPrompt promptAuto, image := cleanImage [7, 7] } : GeminiCall).image = cleanImage buf ∧
      ({ prompt := PromptVal.strPrompt promptAuto, image := cleanImage [7, 7] } : GeminiCall).image
        = Img.png (Img.normalize (Img.gray (Img.raw buf))) :=
  ⟨by decide,
   C4_normalization_pipeline wExtractOk
     { method := "POST", parseOutcome := Except.ok (none, filesOne) }
     { prompt := PromptVal.strPrompt promptAuto, image := cleanImage [7, 7] } (by decide)⟩

/-- C10: An upload larger than the configured 25 MiB limit makes the
multipart parse reject, and the handler surfaces that failure through the
top-level catch as a 500 server error carrying the parse error message, not
as a 400, with no external model call. -/
theorem C10_oversize_upload_500 (w : ExtractWorld) (size : Nat) (parsed : ParsedForm)
    (hsize : size > 25 * 1024 * 1024) :
    ∃ msg, parseMultipartOutcome size parsed = Except.error msg ∧
      (extractHandler w
          { method := "POST", parseOutcome := parseMultipartOutcome size parsed }).response.status = 500 ∧
      (extractHandler w
          { method := "POST", parseOutcome := parseMultipartOutcome size parsed }).response.body
        = ApiBody.errorOut msg ∧
      (extractHandler w
          { method := "POST", parseOutcome := parseMultipartOutcome size parsed }).geminiCalls = [] ∧
      (extractHandler w
          { method := "POST", parseOutcome := parseMultipartOutcome size parsed }).response.status ≠ 400 := by
  have hpo : parseMultipartOutcome size parsed
      = Except.error ("options.maxFileSize (" ++ toString maxFileSize ++ " bytes) exceeded") := by
    unfold parseMultipartOutcome
    rw [if_pos]
    exact hsize
  have hst : (extractHandler w
      { method := "POST", parseOutcome := parseMultipartOutcome size parsed }).response.status = 500 := by
    unfold extractHandler
    simp only [reduceIte]
    rw [hpo]
  refine ⟨_, hpo, hst, ?_, ?_, ?_⟩
  · unfold extractHandler
    simp only [reduceIte]
    rw [hpo]
  · unfold extractHandler
    simp only [reduceIte]
    rw [hpo]
  · rw [hst]
    decide

theorem C10_oversize_upload_500_witness :
    26214401 > 25 * 1024 * 1024 ∧
    ∃ msg, parseMultipartOutcome 26214401 (none, none) = Except.error msg ∧
      (extractHandler wNoKey
          { method := "POST", parseOutcome := parseMultipartOutcome 26214401 (none, none) }).response.status = 500 ∧
      (extractHandler wNoKey
          { method := "POST", parseOutcome := parseMultipartOutcome 26214401 (none, none) }).response.body
        = ApiBody.errorOut msg ∧
      (extractHandler wNoKey
          { method := "POST", parseOutcome := parseMultipartOutcome 26214401 (none, none) }).geminiCalls = [] ∧
      (extractHandler wNoKey
          { method := "POST", parseOutcome := parseMultipartOutcome 26214401 (none, none) }).response.status ≠ 400 :=
  ⟨by decide, C10_oversize_upload_500 wNoKey 26214401 (none, none) (by decide)⟩

/-- Line-count oracle for the pagination counterexample: the first paragraph
wraps to 40 lines (768 pt, taller than the 649.89 pt of content height of
one page), the second paragraph to one line. -/
def cxLineCount : String → Nat := fun p => if p = "A" then 40 else 1

/-- C7 counterexample: two blank-line separated paragraphs whose required
heights together exceed one page of content produce three pages, not two,
because the first paragraph alone already overflows and triggers its own
page break (page.tsx lines 182 to 188) before the second paragraph triggers
another. -/
theorem C7_two_paragraph_counterexample :
    (paragraphsOf "A\n\nB").length = 2 ∧
    contentHeightC <
      ((paragraphsOf "A\n\nB").map (fun p => (cxLineCount p : Int) * lineHeightC)).sum ∧
    pageCount cxLineCount "A\n\nB" = 3 :=
  ⟨by decide, by decide, by decide⟩

/-- C7 (amended): the document export splits the text into paragraphs on
blank-line delimiters and starts a new page exactly when the next paragraph
would overflow the remaining vertical space; two blank-line separated
paragraphs that together exceed one page's content height produce exactly
two pages, provided the first paragraph on its own fits within the content
height (a taller first paragraph triggers its own page break first and
yields a third page). -/
theorem C7_two_paragraphs_two_pages (lc : String → Nat) (t p q : String)
    (hsplit : paragraphsOf t = [p, q])
    (hfit : (lc p : Int) * lineHeightC ≤ contentHeightC)
    (hover : contentHeightC < (lc p : Int) * lineHeightC + (lc q : Int) * lineHeightC) :
    (∀ (n : Nat) (st : Int × Nat) (ip : Nat × String),
        (pdfBodyStep n lc st ip).2
          = st.2 + (if st.1 + (lc ip.2 : Int) * lineHeightC
                      > pageHeightC - marginBottomC then 1 else 0)) ∧
    pageCount lc t = 2 := by
  constructor
  · rintro n ⟨c, pg⟩ ip
    by_cases h : c + (lc ip.2 : Int) * lineHeightC > pageHeightC - marginBottomC <;>
      simp [pdfBodyStep, h]
  · simp only [lineHeightC, contentHeightC, pageHeightC, marginTopC, marginBottomC] at hfit hover
    unfold pageCount
    rw [hsplit]
    simp only [List.enum, List.enumFrom, List.foldl, List.length_cons, List.length_nil,
      pdfBodyStep, lineHeightC, pageHeightC, marginTopC, marginBottomC, paragraphSpacingC]
    norm_num
    split <;> rename_i h1
    · omega
    · split <;> rename_i h2
      · rfl
      · omega

/-- Line-count oracle for the amended pagination instance: the first
paragraph wraps to 30 lines (576 pt, fitting one page), the second to 10
lines, so together they exceed one page of content. -/
def wLineCount : String → Nat := fun p => if p = "P" then 30 else 10

theorem C7_two_paragraphs_two_pages_witness :
    paragraphsOf "P\n\nQ" = ["P", "Q"] ∧
    pageCount wLineCount "P\n\nQ" = 2 :=
  ⟨by decide,
   (C7_two_paragraphs_two_pages wLineCount "P\n\nQ" "P" "Q"
     (by decide) (by decide) (by decide)).2⟩
